import Mathlib

/-!
Shallow embedding of the SpyEngine session / mission state machinery
(src/backend/app/services/state_manager.py, src/backend/app/services/mission_generator.py,
src/backend/app/core/game_engine.py) together with theorems settling the
specification claims about it.

Machine conventions: ids and timestamps are natural numbers, Python dictionaries
are association lists, Python None and falsy values are modelled explicitly
(Option plus the 0-is-falsy rule for ids), and fallible operations return a
Bool success flag paired with the post-call state so that partially applied
mutations before an exception remain observable.
-/

namespace SpyEngine

/-- Python truthiness for an optional integer id: None and 0 are both falsy. -/
def truthyId : Option Nat → Option Nat
  | some n => if n = 0 then none else some n
  | none => none

/-- Python truthiness for an optional string: None and the empty string are falsy. -/
def truthyStr : Option String → Option String
  | some s => if s = "" then none else some s
  | none => none

/-- Dictionary lookup on an association list (Python dict access / `in` test). -/
def alookup {κ α : Type} [DecidableEq κ] (m : List (κ × α)) (k : κ) : Option α :=
  (m.find? (fun p => p.1 = k)).map (fun p => p.2)

/-- Dictionary update on an association list: overwrite the existing binding in
place, or append a new binding when the key is absent. -/
def aset {κ α : Type} [DecidableEq κ] (m : List (κ × α)) (k : κ) (v : α) : List (κ × α) :=
  if (alookup m k).isSome then
    m.map (fun p => if p.1 = k then (k, v) else p)
  else
    m ++ [(k, v)]

/-! ## Data model -/

/-- Character snapshot stored in the encountered-character map of UserProgress
(state_manager.py, transition_to_node). -/
structure CharSnapshot where
  name : String
  backstory : String
  plot_lines : List String
deriving Repr, DecidableEq

/-- Character entry of the encountered_characters list in a node metadata blob
(game_engine.py writes it; state_manager.py reads it with .get defaults). -/
structure CharMeta where
  id : Option Nat
  name : Option String
  backstory : Option String
  plot_lines : Option (List String)
deriving Repr, DecidableEq

/-- Mission snapshot inside a node metadata blob (mission_info key); every
field is read back with a .get default in state_manager.py. -/
structure MissionInfo where
  title : Option String
  objective : Option String
  status : Option String
  progress : Option Int
deriving Repr, DecidableEq

/-- Structured metadata blob of a story node (branch_metadata); only the keys
the embedded operations read are modelled. -/
structure NodeMetadata where
  encountered_characters : List CharMeta
  mission_info : Option MissionInfo
deriving Repr, DecidableEq

/-- StoryNode row: id, owning story, parent pointer, narrative text, creation
timestamp and metadata blob. branch_metadata is optional because Python code
guards every access with a truthiness test. -/
structure StoryNode where
  id : Nat
  story_id : Nat
  parent_node_id : Option Nat
  narrative_text : String
  created_at : Nat
  branch_metadata : Option NodeMetadata
deriving Repr, DecidableEq

/-- Append-only audit entry of a mission progress_updates log. The complete
path writes progress/description, the fail path writes reason instead, so the
fields not present in a given dict are Option none. -/
structure ProgressUpdate where
  progress : Option Int
  status : String
  timestamp : Nat
  description : Option String
  reason : Option String
deriving Repr, DecidableEq

/-- Mission row (mission_generator.py): lifecycle status is kept as the literal
Python string, progress as an integer. -/
structure Mission where
  id : Nat
  user_id : String
  title : String
  description : String
  objective : String
  status : String
  difficulty : String
  progress : Int
  progress_updates : List ProgressUpdate
  reward_currency : String
  reward_amount : Int
  giver_id : Option Nat
  target_id : Option Nat
  deadline : String
  story_id : Option Nat
  completed_at : Option Nat
deriving Repr, DecidableEq

/-- UserProgress row: session-persistent per-user aggregate. relationships is
the per-character relationship_level map kept by the models package. -/
structure UserProgress where
  user_id : String
  current_story_id : Option Nat
  current_node_id : Option Nat
  node_count : Nat
  last_active : Nat
  active_missions : List Nat
  completed_missions : List Nat
  failed_missions : List Nat
  choice_history : List Nat
  encountered_characters : List (String × CharSnapshot)
  currency_balances : List (String × Int)
  relationships : List (Nat × Int)
  experience_points : Int
deriving Repr, DecidableEq

/-- Modelled from the spec: UserProgress.change_character_relationship lives in
the models package, which is not part of this source tree; per spec section 4.6
it lazily creates the relationship record with level 0 and adds the delta
without clamping. -/
def change_character_relationship (up : UserProgress) (cid : Nat) (delta : Int) : UserProgress :=
  let old := (alookup up.relationships cid).getD 0
  { up with relationships := aset up.relationships cid (old + delta) }

/-- Modelled from the spec: UserProgress.add_experience_points lives in the
models package outside this source tree; modelled as an additive credit (no
claim depends on its details). -/
def add_experience_points (up : UserProgress) (xp : Int) : UserProgress :=
  { up with experience_points := up.experience_points + xp }

/-! ## Mission state machine (mission_generator.py) -/

/-- Experience rewards by difficulty inside complete_mission. -/
def xp_rewards : List (String × Int) :=
  [("easy", 50), ("medium", 100), ("hard", 200)]

/-- Persistent store slice the mission functions touch: the mission table and
the user-progress table. -/
structure MissionState where
  missions : List Mission
  users : List UserProgress
deriving Repr, DecidableEq

/-- Mission.query.get: first mission with the given id. -/
def findMission (st : MissionState) (mid : Nat) : Option Mission :=
  st.missions.find? (fun m => m.id = mid)

/-- UserProgress.query.filter_by(user_id).first(). -/
def findUser (st : MissionState) (uid : String) : Option UserProgress :=
  st.users.find? (fun u => u.user_id = uid)

/-- ORM object mutation: replace the mission row with the given id. -/
def setMission (st : MissionState) (m : Mission) : MissionState :=
  { st with missions := st.missions.map (fun x => if x.id = m.id then m else x) }

/-- ORM object mutation: replace the user-progress row with the given user id. -/
def setUser (st : MissionState) (u : UserProgress) : MissionState :=
  { st with users := st.users.map (fun x => if x.user_id = u.user_id then u else x) }

/-- Currency credit in complete_mission: add to the existing bucket, or create
the bucket on first credit. -/
def creditCurrency (bal : List (String × Int)) (cur : String) (amt : Int) : List (String × Int) :=
  match alookup bal cur with
  | some b => aset bal cur (b + amt)
  | none => bal ++ [(cur, amt)]

/-- complete_mission (mission_generator.py lines 551-619): mark an active
mission completed, append the audit entry, move the id between the user
mission sets, credit the reward and adjust relationships. -/
def complete_mission (st : MissionState) (mission_id : Nat) (user_id : String) (now : Nat) :
    Bool × MissionState :=
  match findMission st mission_id with
  | none => (false, st)
  | some m =>
    if m.status ≠ "active" then (false, st)
    else
      let m' := { m with
        status := "completed",
        completed_at := some now,
        progress := 100,
        progress_updates := m.progress_updates ++
          [⟨some 100, "completed", now, some "Mission successfully completed!", none⟩] }
      let st := setMission st m'
      match findUser st user_id with
      | none => (true, st)
      | some up =>
        let up := { up with active_missions := up.active_missions.erase m'.id }
        let up := { up with completed_missions := up.completed_missions ++ [m'.id] }
        let up := { up with
          currency_balances := creditCurrency up.currency_balances m'.reward_currency m'.reward_amount }
        let up := add_experience_points up ((alookup xp_rewards m'.difficulty).getD 50)
        let up :=
          match truthyId m'.giver_id with
          | some g => change_character_relationship up g 2
          | none => up
        let up :=
          match truthyId m'.target_id with
          | some t => change_character_relationship up t (-3)
          | none => up
        (true, setUser st up)

/-- fail_mission (mission_generator.py lines 622-668): mark an active mission
failed, append the audit entry (progress untouched), move the id to the failed
set and lower the relationship toward the giver. -/
def fail_mission (st : MissionState) (mission_id : Nat) (user_id : String)
    (reason : Option String) (now : Nat) : Bool × MissionState :=
  match findMission st mission_id with
  | none => (false, st)
  | some m =>
    if m.status ≠ "active" then (false, st)
    else
      let m' := { m with
        status := "failed",
        progress_updates := m.progress_updates ++
          [⟨none, "failed", now, none, truthyStr reason⟩] }
      let st := setMission st m'
      match findUser st user_id with
      | none => (true, st)
      | some up =>
        let up := { up with active_missions := up.active_missions.erase m'.id }
        let up := { up with failed_missions := up.failed_missions ++ [m'.id] }
        let up :=
          match truthyId m'.giver_id with
          | some g => change_character_relationship up g (-1)
          | none => up
        (true, setUser st up)

/-! ## Accessors used to state the mission theorems -/

/-- Status of the mission with the given id, if present. -/
def missionStatus (st : MissionState) (mid : Nat) : Option String :=
  (findMission st mid).map (fun m => m.status)

/-- Progress of the mission with the given id, if present. -/
def missionProgress (st : MissionState) (mid : Nat) : Option Int :=
  (findMission st mid).map (fun m => m.progress)

/-- Progress_updates log of the mission with the given id, if present. -/
def missionUpdates (st : MissionState) (mid : Nat) : Option (List ProgressUpdate) :=
  (findMission st mid).map (fun m => m.progress_updates)

/-- Active mission ids of a user (empty when the row is absent). -/
def userActive (st : MissionState) (uid : String) : List Nat :=
  ((findUser st uid).map (fun u => u.active_missions)).getD []

/-- Completed mission ids of a user (empty when the row is absent). -/
def userCompleted (st : MissionState) (uid : String) : List Nat :=
  ((findUser st uid).map (fun u => u.completed_missions)).getD []

/-- Failed mission ids of a user (empty when the row is absent). -/
def userFailed (st : MissionState) (uid : String) : List Nat :=
  ((findUser st uid).map (fun u => u.failed_missions)).getD []

/-- Balance of a currency bucket of a user, if the bucket exists. -/
def userBalance (st : MissionState) (uid : String) (cur : String) : Option Int :=
  (findUser st uid).bind (fun u => alookup u.currency_balances cur)

/-- Relationship level of a user toward a character (0 when unseen). -/
def userRel (st : MissionState) (uid : String) (cid : Nat) : Int :=
  ((findUser st uid).bind (fun u => alookup u.relationships cid)).getD 0

/-! ## Support lemmas -/

theorem find?_id_map_replace (ms : List Mission) (m' : Mission)
    (h : (ms.find? (fun x => x.id = m'.id)).isSome) :
    (ms.map (fun x => if x.id = m'.id then m' else x)).find? (fun x => x.id = m'.id) = some m' := by
  induction ms with
  | nil => simp [List.find?] at h
  | cons a t ih =>
    by_cases ha : a.id = m'.id
    · rw [List.map_cons, if_pos ha]
      exact List.find?_cons_of_pos _ (by simp)
    · rw [List.map_cons, if_neg ha]
      rw [List.find?_cons_of_neg t (by simpa using ha)] at h
      rw [List.find?_cons_of_neg _ (by simpa using ha)]
      exact ih h

theorem find?_uid_map_replace (us : List UserProgress) (u' : UserProgress)
    (h : (us.find? (fun x => x.user_id = u'.user_id)).isSome) :
    (us.map (fun x => if x.user_id = u'.user_id then u' else x)).find?
      (fun x => x.user_id = u'.user_id) = some u' := by
  induction us with
  | nil => simp [List.find?] at h
  | cons a t ih =>
    by_cases ha : a.user_id = u'.user_id
    · rw [List.map_cons, if_pos ha]
      exact List.find?_cons_of_pos _ (by simp)
    · rw [List.map_cons, if_neg ha]
      rw [List.find?_cons_of_neg t (by simpa using ha)] at h
      rw [List.find?_cons_of_neg _ (by simpa using ha)]
      exact ih h

theorem findMission_setMission (st : MissionState) (m' : Mission)
    (h : (findMission st m'.id).isSome) :
    findMission (setMission st m') m'.id = some m' :=
  find?_id_map_replace st.missions m' h

theorem findUser_setUser (st : MissionState) (u' : UserProgress)
    (h : (findUser st u'.user_id).isSome) :
    findUser (setUser st u') u'.user_id = some u' :=
  find?_uid_map_replace st.users u' h

theorem findUser_setMission (st : MissionState) (m : Mission) (uid : String) :
    findUser (setMission st m) uid = findUser st uid := rfl

theorem findMission_setUser (st : MissionState) (u : UserProgress) (mid : Nat) :
    findMission (setUser st u) mid = findMission st mid := rfl

theorem afind_map_replace {κ α : Type} [DecidableEq κ] (m : List (κ × α)) (k : κ) (v : α)
    (h : (m.find? (fun p => p.1 = k)).isSome) :
    (m.map (fun p => if p.1 = k then (k, v) else p)).find? (fun p => p.1 = k) = some (k, v) := by
  induction m with
  | nil => simp [List.find?] at h
  | cons a t ih =>
    by_cases ha : a.1 = k
    · rw [List.map_cons, if_pos ha]
      exact List.find?_cons_of_pos _ (by simp)
    · rw [List.map_cons, if_neg ha]
      rw [List.find?_cons_of_neg t (by simpa using ha)] at h
      rw [List.find?_cons_of_neg _ (by simpa using ha)]
      exact ih h

theorem afind_map_replace_ne {κ α : Type} [DecidableEq κ] (m : List (κ × α)) (k k' : κ) (v : α)
    (h : k' ≠ k) :
    (m.map (fun p => if p.1 = k then (k, v) else p)).find? (fun p => p.1 = k') =
      m.find? (fun p => p.1 = k') := by
  induction m with
  | nil => rfl
  | cons a t ih =>
    by_cases ha : a.1 = k
    · have hak : ¬ a.1 = k' := by rw [ha]; exact fun hh => h hh.symm
      rw [List.map_cons, if_pos ha]
      rw [List.find?_cons_of_neg _ (by simpa using fun hh => h hh.symm),
        List.find?_cons_of_neg _ (by simpa using hak)]
      exact ih
    · rw [List.map_cons, if_neg ha]
      by_cases ha' : a.1 = k'
      · rw [List.find?_cons_of_pos _ (by simpa using ha'),
          List.find?_cons_of_pos _ (by simpa using ha')]
      · rw [List.find?_cons_of_neg _ (by simpa using ha'),
          List.find?_cons_of_neg _ (by simpa using ha')]
        exact ih

theorem afind_none_append {κ α : Type} [DecidableEq κ] (m : List (κ × α)) (k : κ) (v : α)
    (h : m.find? (fun p => p.1 = k) = none) :
    (m ++ [(k, v)]).find? (fun p => p.1 = k) = some (k, v) := by
  rw [List.find?_append, h]
  simp [List.find?]

theorem afind_append_ne {κ α : Type} [DecidableEq κ] (m : List (κ × α)) (k k' : κ) (v : α)
    (h : k' ≠ k) :
    (m ++ [(k, v)]).find? (fun p => p.1 = k') = m.find? (fun p => p.1 = k') := by
  rw [List.find?_append]
  have hkk : (decide (((k, v) : κ × α).1 = k')) = false := by
    simp only [decide_eq_false_iff_not]
    exact fun hh => h hh.symm
  have hsingle : ([((k, v) : κ × α)]).find? (fun p => p.1 = k') = none := by
    simp [List.find?, hkk]
  rw [hsingle]
  cases m.find? (fun p => p.1 = k') <;> rfl

theorem alookup_aset_self {κ α : Type} [DecidableEq κ] (m : List (κ × α)) (k : κ) (v : α) :
    alookup (aset m k v) k = some v := by
  unfold aset
  by_cases h : (alookup m k).isSome
  · rw [if_pos h]
    unfold alookup at h ⊢
    rw [afind_map_replace m k v (by simpa using h)]
    rfl
  · rw [if_neg h]
    unfold alookup at h ⊢
    have hnone : m.find? (fun p => p.1 = k) = none := by
      cases hf : m.find? (fun p => p.1 = k) with
      | none => rfl
      | some a => rw [hf] at h; simp at h
    rw [afind_none_append m k v hnone]
    rfl

theorem alookup_aset_ne {κ α : Type} [DecidableEq κ] (m : List (κ × α)) (k k' : κ) (v : α)
    (h : k' ≠ k) : alookup (aset m k v) k' = alookup m k' := by
  unfold aset
  by_cases hs : (alookup m k).isSome
  · rw [if_pos hs]
    unfold alookup
    rw [afind_map_replace_ne m k k' v h]
  · rw [if_neg hs]
    unfold alookup
    rw [afind_append_ne m k k' v h]

theorem alookup_creditCurrency_self (bal : List (String × Int)) (cur : String) (amt : Int) :
    alookup (creditCurrency bal cur amt) cur =
      some ((alookup bal cur).getD 0 + amt) := by
  unfold creditCurrency
  cases hb : alookup bal cur with
  | some b => simpa using alookup_aset_self bal cur (b + amt)
  | none =>
    simp only [Option.getD_none]
    have hnone : bal.find? (fun p => p.1 = cur) = none := by
      unfold alookup at hb
      cases hf : bal.find? (fun p => p.1 = cur) with
      | none => rfl
      | some a => rw [hf] at hb; simp at hb
    unfold alookup
    rw [afind_none_append bal cur amt hnone]
    simp

theorem userRel_change_self (up : UserProgress) (cid : Nat) (d : Int) :
    alookup (change_character_relationship up cid d).relationships cid =
      some ((alookup up.relationships cid).getD 0 + d) := by
  unfold change_character_relationship
  exact alookup_aset_self up.relationships cid _

theorem userRel_change_ne (up : UserProgress) (cid cid' : Nat) (d : Int) (h : cid' ≠ cid) :
    alookup (change_character_relationship up cid d).relationships cid' =
      alookup up.relationships cid' := by
  unfold change_character_relationship
  exact alookup_aset_ne up.relationships cid cid' _ h

/-! ## Shape of a successful complete_mission call -/

/-- Updated mission row produced by complete_mission on an active mission. -/
def completedMission (m : Mission) (now : Nat) : Mission :=
  { m with
    status := "completed",
    completed_at := some now,
    progress := 100,
    progress_updates := m.progress_updates ++
      [⟨some 100, "completed", now, some "Mission successfully completed!", none⟩] }

/-- Updated user-progress row produced by complete_mission on an active
mission whose owner row exists. -/
def completedUserUpdate (up : UserProgress) (m' : Mission) : UserProgress :=
  let up := { up with active_missions := up.active_missions.erase m'.id }
  let up := { up with completed_missions := up.completed_missions ++ [m'.id] }
  let up := { up with
    currency_balances := creditCurrency up.currency_balances m'.reward_currency m'.reward_amount }
  let up := add_experience_points up ((alookup xp_rewards m'.difficulty).getD 50)
  let up :=
    match truthyId m'.giver_id with
    | some g => change_character_relationship up g 2
    | none => up
  match truthyId m'.target_id with
  | some t => change_character_relationship up t (-3)
  | none => up

theorem complete_mission_eq (st : MissionState) (mid : Nat) (uid : String) (now : Nat)
    (m : Mission) (up : UserProgress)
    (hm : findMission st mid = some m) (hact : m.status = "active")
    (hu : findUser st uid = some up) :
    complete_mission st mid uid now =
      (true, setUser (setMission st (completedMission m now))
        (completedUserUpdate up (completedMission m now))) := by
  unfold complete_mission
  simp only [hm]
  rw [if_neg (by simp [hact])]
  simp only [findUser_setMission, hu]
  rfl

theorem completedUserUpdate_user_id (up : UserProgress) (m' : Mission) :
    (completedUserUpdate up m').user_id = up.user_id := by
  unfold completedUserUpdate
  cases truthyId m'.giver_id <;> cases truthyId m'.target_id <;> rfl

theorem completedUserUpdate_active (up : UserProgress) (m' : Mission) :
    (completedUserUpdate up m').active_missions = up.active_missions.erase m'.id := by
  unfold completedUserUpdate
  cases truthyId m'.giver_id <;> cases truthyId m'.target_id <;> rfl

theorem completedUserUpdate_completed (up : UserProgress) (m' : Mission) :
    (completedUserUpdate up m').completed_missions = up.completed_missions ++ [m'.id] := by
  unfold completedUserUpdate
  cases truthyId m'.giver_id <;> cases truthyId m'.target_id <;> rfl

theorem completedUserUpdate_balances (up : UserProgress) (m' : Mission) :
    (completedUserUpdate up m').currency_balances =
      creditCurrency up.currency_balances m'.reward_currency m'.reward_amount := by
  unfold completedUserUpdate
  cases truthyId m'.giver_id <;> cases truthyId m'.target_id <;> rfl

theorem completedUserUpdate_rel_giver (up : UserProgress) (m' : Mission) (g : Nat)
    (hg : truthyId m'.giver_id = some g)
    (hgt : ∀ g' t', truthyId m'.giver_id = some g' → truthyId m'.target_id = some t' → g' ≠ t') :
    alookup (completedUserUpdate up m').relationships g =
      some ((alookup up.relationships g).getD 0 + 2) := by
  unfold completedUserUpdate
  rw [hg]
  cases ht : truthyId m'.target_id with
  | none =>
    rw [userRel_change_self]
    rfl
  | some t =>
    have hne : g ≠ t := hgt g t hg ht
    rw [userRel_change_ne _ t g (-3) hne, userRel_change_self]
    rfl

theorem completedUserUpdate_rel_target (up : UserProgress) (m' : Mission) (t : Nat)
    (ht : truthyId m'.target_id = some t)
    (hgt : ∀ g' t', truthyId m'.giver_id = some g' → truthyId m'.target_id = some t' → g' ≠ t') :
    alookup (completedUserUpdate up m').relationships t =
      some ((alookup up.relationships t).getD 0 + (-3)) := by
  unfold completedUserUpdate
  rw [ht]
  cases hg : truthyId m'.giver_id with
  | none =>
    rw [userRel_change_self]
    rfl
  | some g =>
    have hne : t ≠ g := fun hh => (hgt g t hg ht) hh.symm
    rw [userRel_change_self, userRel_change_ne _ g t 2 hne]
    rfl


/-- C3: for every mission whose status is active, complete_mission sets status
to completed and progress to 100, appends a progress-update audit entry, moves
the mission id from the active list to the completed list, credits the reward
currency (creating the bucket when absent), raises the relationship toward the
giver by 2 and lowers it toward the target by 3 when those ids are set, and
returns true. -/
theorem complete_mission_active_effects (st : MissionState) (mid : Nat) (uid : String)
    (now : Nat) (m : Mission) (up : UserProgress)
    (hm : findMission st mid = some m) (hact : m.status = "active")
    (hu : findUser st uid = some up)
    (hnd : up.active_missions.Nodup)
    (hgt : ∀ g t, truthyId m.giver_id = some g → truthyId m.target_id = some t → g ≠ t) :
    (complete_mission st mid uid now).1 = true ∧
    missionStatus (complete_mission st mid uid now).2 mid = some "completed" ∧
    missionProgress (complete_mission st mid uid now).2 mid = some 100 ∧
    missionUpdates (complete_mission st mid uid now).2 mid =
      some (m.progress_updates ++
        [⟨some 100, "completed", now, some "Mission successfully completed!", none⟩]) ∧
    userActive (complete_mission st mid uid now).2 uid = up.active_missions.erase mid ∧
    mid ∉ userActive (complete_mission st mid uid now).2 uid ∧
    userCompleted (complete_mission st mid uid now).2 uid = up.completed_missions ++ [mid] ∧
    userBalance (complete_mission st mid uid now).2 uid m.reward_currency =
      some ((alookup up.currency_balances m.reward_currency).getD 0 + m.reward_amount) ∧
    (∀ g, truthyId m.giver_id = some g →
      userRel (complete_mission st mid uid now).2 uid g = userRel st uid g + 2) ∧
    (∀ t, truthyId m.target_id = some t →
      userRel (complete_mission st mid uid now).2 uid t = userRel st uid t - 3) := by
  have hm' : st.missions.find? (fun x => x.id = mid) = some m := hm
  have hid : m.id = mid := by simpa using List.find?_some hm'
  have hu' : st.users.find? (fun x => x.user_id = uid) = some up := hu
  have huid : up.user_id = uid := by simpa using List.find?_some hu'
  have heq := complete_mission_eq st mid uid now m up hm hact hu
  have hfindM : findMission (setUser (setMission st (completedMission m now))
      (completedUserUpdate up (completedMission m now))) mid =
      some (completedMission m now) := by
    rw [findMission_setUser]
    have hs : (findMission st (completedMission m now).id).isSome := by
      rw [show (completedMission m now).id = mid from hid, hm]; rfl
    have h2 := findMission_setMission st (completedMission m now) hs
    rw [show (completedMission m now).id = mid from hid] at h2
    exact h2
  have hfindU : findUser (setUser (setMission st (completedMission m now))
      (completedUserUpdate up (completedMission m now))) uid =
      some (completedUserUpdate up (completedMission m now)) := by
    have hs : (findUser (setMission st (completedMission m now))
        (completedUserUpdate up (completedMission m now)).user_id).isSome := by
      rw [findUser_setMission, completedUserUpdate_user_id, huid, hu]; rfl
    have h2 := findUser_setUser (setMission st (completedMission m now))
      (completedUserUpdate up (completedMission m now)) hs
    rw [completedUserUpdate_user_id, huid] at h2
    exact h2
  refine ⟨by rw [heq], ?_, ?_, ?_, ?_, ?_, ?_, ?_, ?_, ?_⟩
  · rw [heq]; unfold missionStatus; rw [hfindM]; rfl
  · rw [heq]; unfold missionProgress; rw [hfindM]; rfl
  · rw [heq]; unfold missionUpdates; rw [hfindM]; rfl
  · rw [heq]; unfold userActive; rw [hfindU]
    rw [show ((some (completedUserUpdate up (completedMission m now))).map
      (fun u => u.active_missions)).getD [] =
      (completedUserUpdate up (completedMission m now)).active_missions from rfl]
    rw [completedUserUpdate_active]
    rw [show (completedMission m now).id = mid from hid]
  · rw [heq]; unfold userActive; rw [hfindU]
    rw [show ((some (completedUserUpdate up (completedMission m now))).map
      (fun u => u.active_missions)).getD [] =
      (completedUserUpdate up (completedMission m now)).active_missions from rfl]
    rw [completedUserUpdate_active]
    rw [show (completedMission m now).id = mid from hid]
    rw [List.Nodup.mem_erase_iff hnd]
    simp
  · rw [heq]; unfold userCompleted; rw [hfindU]
    rw [show ((some (completedUserUpdate up (completedMission m now))).map
      (fun u => u.completed_missions)).getD [] =
      (completedUserUpdate up (completedMission m now)).completed_missions from rfl]
    rw [completedUserUpdate_completed]
    rw [show (completedMission m now).id = mid from hid]
  · rw [heq]; unfold userBalance; rw [hfindU]
    rw [show ((some (completedUserUpdate up (completedMission m now))).bind
      (fun u => alookup u.currency_balances m.reward_currency)) =
      alookup (completedUserUpdate up (completedMission m now)).currency_balances
        m.reward_currency from rfl]
    rw [completedUserUpdate_balances]
    exact alookup_creditCurrency_self up.currency_balances m.reward_currency m.reward_amount
  · intro g hg
    rw [heq]; unfold userRel; rw [hfindU, hu]
    rw [show ((some (completedUserUpdate up (completedMission m now))).bind
      (fun u => alookup u.relationships g)) =
      alookup (completedUserUpdate up (completedMission m now)).relationships g from rfl]
    rw [completedUserUpdate_rel_giver up (completedMission m now) g hg hgt]
    rfl
  · intro t ht
    rw [heq]; unfold userRel; rw [hfindU, hu]
    rw [show ((some (completedUserUpdate up (completedMission m now))).bind
      (fun u => alookup u.relationships t)) =
      alookup (completedUserUpdate up (completedMission m now)).relationships t from rfl]
    rw [completedUserUpdate_rel_target up (completedMission m now) t ht hgt]
    show (alookup up.relationships t).getD 0 + (-3) =
      ((some up).bind (fun u => alookup u.relationships t)).getD 0 - 3
    show (alookup up.relationships t).getD 0 + (-3) = (alookup up.relationships t).getD 0 - 3
    omega

/-! ## Concrete instances for the mission-machine witnesses -/

def c3_mission : Mission :=
  { id := 7, user_id := "alice", title := "Mission: infiltrate", description := "d",
    objective := "infiltrate the base", status := "active", difficulty := "easy",
    progress := 40, progress_updates := [], reward_currency := "💵", reward_amount := 100,
    giver_id := some 1, target_id := some 2, deadline := "soon", story_id := some 3,
    completed_at := none }

def c3_user : UserProgress :=
  { user_id := "alice", current_story_id := some 3, current_node_id := some 5,
    node_count := 2, last_active := 0, active_missions := [7], completed_missions := [],
    failed_missions := [], choice_history := [5], encountered_characters := [],
    currency_balances := [], relationships := [], experience_points := 0 }

def c3_state : MissionState := { missions := [c3_mission], users := [c3_user] }

/-- Witness for complete_mission_active_effects at a concrete active mission. -/
theorem complete_mission_active_effects_witness :
    (findMission c3_state 7 = some c3_mission ∧ c3_mission.status = "active" ∧
     findUser c3_state "alice" = some c3_user ∧ c3_user.active_missions.Nodup ∧
     (∀ g t, truthyId c3_mission.giver_id = some g →
       truthyId c3_mission.target_id = some t → g ≠ t)) ∧
    ((complete_mission c3_state 7 "alice" 9).1 = true ∧
     missionStatus (complete_mission c3_state 7 "alice" 9).2 7 = some "completed" ∧
     missionProgress (complete_mission c3_state 7 "alice" 9).2 7 = some 100 ∧
     missionUpdates (complete_mission c3_state 7 "alice" 9).2 7 =
       some (c3_mission.progress_updates ++
         [⟨some 100, "completed", 9, some "Mission successfully completed!", none⟩]) ∧
     userActive (complete_mission c3_state 7 "alice" 9).2 "alice" =
       c3_user.active_missions.erase 7 ∧
     7 ∉ userActive (complete_mission c3_state 7 "alice" 9).2 "alice" ∧
     userCompleted (complete_mission c3_state 7 "alice" 9).2 "alice" =
       c3_user.completed_missions ++ [7] ∧
     userBalance (complete_mission c3_state 7 "alice" 9).2 "alice" c3_mission.reward_currency =
       some ((alookup c3_user.currency_balances c3_mission.reward_currency).getD 0 +
         c3_mission.reward_amount) ∧
     (∀ g, truthyId c3_mission.giver_id = some g →
       userRel (complete_mission c3_state 7 "alice" 9).2 "alice" g =
         userRel c3_state "alice" g + 2) ∧
     (∀ t, truthyId c3_mission.target_id = some t →
       userRel (complete_mission c3_state 7 "alice" 9).2 "alice" t =
         userRel c3_state "alice" t - 3)) := by
  have hgt : ∀ g t, truthyId c3_mission.giver_id = some g →
      truthyId c3_mission.target_id = some t → g ≠ t := by
    intro g t hg ht
    simp [c3_mission, truthyId] at hg ht
    omega
  exact ⟨⟨rfl, rfl, rfl, by decide, hgt⟩,
    complete_mission_active_effects c3_state 7 "alice" 9 c3_mission c3_user rfl rfl rfl
      (by decide) hgt⟩

/-- C4: calling complete_mission or fail_mission on a mission already in a
terminal state returns false and leaves the whole store, in particular the
mission row and the user mission sets, unchanged. -/
theorem terminal_mission_noop (st : MissionState) (mid : Nat) (uid : String)
    (reason : Option String) (now : Nat) (m : Mission)
    (hm : findMission st mid = some m)
    (hterm : m.status = "completed" ∨ m.status = "failed") :
    complete_mission st mid uid now = (false, st) ∧
    fail_mission st mid uid reason now = (false, st) := by
  have hne : m.status ≠ "active" := by
    rcases hterm with h | h <;> rw [h] <;> decide
  constructor
  · unfold complete_mission
    simp only [hm]
    rw [if_pos hne]
  · unfold fail_mission
    simp only [hm]
    rw [if_pos hne]

def c4_mission : Mission :=
  { id := 9, user_id := "bob", title := "Mission: done", description := "d",
    objective := "o", status := "completed", difficulty := "hard",
    progress := 100, progress_updates := [], reward_currency := "💎", reward_amount := 1,
    giver_id := none, target_id := none, deadline := "", story_id := none,
    completed_at := some 1 }

def c4_state : MissionState := { missions := [c4_mission], users := [] }

/-- Witness for terminal_mission_noop at a concrete completed mission. -/
theorem terminal_mission_noop_witness :
    (findMission c4_state 9 = some c4_mission ∧
     (c4_mission.status = "completed" ∨ c4_mission.status = "failed")) ∧
    (complete_mission c4_state 9 "bob" 5 = (false, c4_state) ∧
     fail_mission c4_state 9 "bob" (some "caught") 5 = (false, c4_state)) :=
  ⟨⟨rfl, Or.inl rfl⟩,
    terminal_mission_noop c4_state 9 "bob" (some "caught") 5 c4_mission rfl (Or.inl rfl)⟩

/-! ## Mission extraction (mission_generator.py, extract_mission_details) -/

/-- Extracted mission-detail dictionary built by extract_mission_details. -/
structure MissionDetails where
  giver : Option String
  giver_id : Option Nat
  target : Option String
  target_id : Option Nat
  objective : String
  deadline : String
  reward_amount : Int
  reward_currency : String
  difficulty : String
deriving Repr, DecidableEq

/-- Base reward amounts per currency symbol (mission_generator.py lines 48-54);
note there is no entry for the empty default currency. -/
def BASE_REWARDS : List (String × Int) :=
  [("💎", 1), ("💵", 1500), ("💷", 1400), ("💶", 1450), ("💴", 150000)]

/-- Outcome of the regular-expression scanning phase of extract_mission_details
(mission_generator.py lines 92-234) over the story text and character list.
The embedding represents that text-scanning phase by its result: which fields
were extracted, if any. A reward match always carries one of the five currency
symbols because the regex character class only matches those. -/
structure ScanOutcome where
  giver : Option String
  giver_id : Option Nat
  target : Option String
  target_id : Option Nat
  objective : Option String
  deadline : Option String
  reward : Option (Int × String)
deriving Repr, DecidableEq

/-- extract_mission_details (mission_generator.py lines 56-262): fill the
default detail dictionary from the scan outcome, then derive difficulty from
the base-reward table. A reward currency absent from BASE_REWARDS (in
particular the default empty string when no reward was extracted) raises
KeyError at the table lookup, and the surrounding handler returns None.
The float thresholds base*2.5 and base*1.5 are exact on these integers, so
they are written as the equivalent integer comparisons. -/
def extract_mission_details (scan : ScanOutcome) : Option MissionDetails :=
  let d : MissionDetails := {
    giver := scan.giver,
    giver_id := scan.giver_id,
    target := scan.target,
    target_id := scan.target_id,
    objective := scan.objective.getD "Objective not clearly specified.",
    deadline := scan.deadline.getD "As soon as possible",
    reward_amount := (scan.reward.map (fun r => r.1)).getD 1500,
    reward_currency := (scan.reward.map (fun r => r.2)).getD "",
    difficulty := "medium" }
  match alookup BASE_REWARDS d.reward_currency with
  | none => none
  | some base =>
    if 2 * d.reward_amount > 5 * base then some { d with difficulty := "hard" }
    else if 2 * d.reward_amount > 3 * base then some { d with difficulty := "medium" }
    else some { d with difficulty := "easy" }

/-- C10: when no reward with a recognized currency symbol is extracted, the
default empty reward_currency misses the BASE_REWARDS table, so
extract_mission_details returns None instead of a detail dictionary built
from defaults. -/
theorem extract_mission_details_no_reward_none (scan : ScanOutcome)
    (h : scan.reward = none) : extract_mission_details scan = none := by
  unfold extract_mission_details
  simp only [h]
  rfl

/-- Witness for extract_mission_details_no_reward_none on a concrete scan with
a giver and an objective but no extracted reward. -/
theorem extract_mission_details_no_reward_none_witness :
    ({ giver := some "Director Shaw", giver_id := some 4, target := some "Viktor",
       target_id := none, objective := some "recover the files", deadline := none,
       reward := none : ScanOutcome }).reward = none ∧
    extract_mission_details
      { giver := some "Director Shaw", giver_id := some 4, target := some "Viktor",
        target_id := none, objective := some "recover the files", deadline := none,
        reward := none } = none :=
  ⟨rfl, extract_mission_details_no_reward_none _ rfl⟩

/-! ## Game state and node transitions (state_manager.py) -/

/-- Plot-arc row; only the columns get_enhanced_context reads. -/
structure PlotArc where
  story_id : Nat
  status : String
  key_nodes : List Nat
deriving Repr, DecidableEq

/-- Story-graph store slice used by the state manager: the node table, the set
of existing story ids and the plot-arc table, in store order. -/
structure DB where
  nodes : List StoryNode
  stories : List Nat
  plot_arcs : List PlotArc
deriving Repr, DecidableEq

/-- StoryNode.query.get: first node with the given id. -/
def findNode (db : DB) (nid : Nat) : Option StoryNode :=
  db.nodes.find? (fun n => n.id = nid)

/-- Entry of the in-memory story history buffer: id, narrative text and the
timestamp taken when the entry is pushed. -/
structure HistoryEntry where
  id : Nat
  narrative_text : String
  timestamp : Nat
deriving Repr, DecidableEq

/-- Session-local game state: the persisted user-progress row plus the
in-memory current node and rolling history buffer of GameState. -/
structure GameState where
  user_progress : UserProgress
  current_node : Option StoryNode
  story_history_buffer : List HistoryEntry
deriving Repr, DecidableEq

/-- Fixed size bound of the rolling history buffer (_max_history_nodes). -/
def max_history_nodes : Nat := 3

/-- GameState._update_story_history (state_manager.py lines 575-600): append
the departing node and evict the oldest entry past the bound. -/
def updateStoryHistory (buf : List HistoryEntry) (node : StoryNode) (now : Nat) :
    List HistoryEntry :=
  let buf2 := buf ++ [⟨node.id, node.narrative_text, now⟩]
  if buf2.length > max_history_nodes then buf2.drop 1 else buf2

/-- Key under which a metadata character lands in the encountered map:
Python computes str(char.get("id")), so a missing id becomes the string None. -/
def charKey (c : CharMeta) : String :=
  match c.id with
  | some n => toString n
  | none => "None"

/-- Snapshot stored for a newly encountered character, with the .get defaults
of the source. -/
def snapshotOf (c : CharMeta) : CharSnapshot :=
  { name := c.name.getD "Unknown",
    backstory := c.backstory.getD "",
    plot_lines := c.plot_lines.getD [] }

/-- Merge of newly encountered characters into the encountered map
(state_manager.py lines 557-565): a character id already present is skipped. -/
def mergeEncountered (mp : List (String × CharSnapshot)) (chars : List CharMeta) :
    List (String × CharSnapshot) :=
  chars.foldl (fun acc c =>
    if (alookup acc (charKey c)).isSome then acc
    else acc ++ [(charKey c, snapshotOf c)]) mp

/-- User-progress mutation block of transition_to_node under update_progress
(state_manager.py lines 544-565). -/
def progressUpdate (up : UserProgress) (new_node : StoryNode) (node_id : Nat) (now : Nat) :
    UserProgress :=
  let up := { up with current_node_id := some node_id, last_active := now }
  let up :=
    if node_id ∈ up.choice_history then up
    else { up with choice_history := up.choice_history ++ [node_id] }
  match new_node.branch_metadata with
  | some md =>
    if md.encountered_characters.isEmpty then up
    else { up with
      encountered_characters := mergeEncountered up.encountered_characters
        md.encountered_characters }
  | none => up

/-- GameState.transition_to_node (state_manager.py lines 509-573). An unknown
node id raises before any mutation, which the caller sees as failure; the
returned state carries every mutation applied before the return. -/
def transition_to_node (db : DB) (gs : GameState) (node_id : Nat) (now : Nat)
    (update_progress : Bool := true) : Bool × GameState :=
  match findNode db node_id with
  | none => (false, gs)
  | some new_node =>
    let gs :=
      match gs.current_node with
      | some cur =>
        { gs with story_history_buffer := updateStoryHistory gs.story_history_buffer cur now }
      | none => gs
    let gs := { gs with current_node := some new_node }
    if update_progress then
      (true, { gs with user_progress := progressUpdate gs.user_progress new_node node_id now })
    else
      (true, gs)

/-- C5: a transition to a node id that does not resolve fails and performs no
mutation at all: history buffer, current node, current_node_id, choice
history, encountered-character map and last-active timestamp are unchanged. -/
theorem transition_invalid_node_no_mutation (db : DB) (gs : GameState)
    (node_id : Nat) (now : Nat) (b : Bool)
    (h : findNode db node_id = none) :
    (transition_to_node db gs node_id now b).1 = false ∧
    (transition_to_node db gs node_id now b).2 = gs ∧
    (transition_to_node db gs node_id now b).2.story_history_buffer =
      gs.story_history_buffer ∧
    (transition_to_node db gs node_id now b).2.current_node = gs.current_node ∧
    (transition_to_node db gs node_id now b).2.user_progress.current_node_id =
      gs.user_progress.current_node_id ∧
    (transition_to_node db gs node_id now b).2.user_progress.choice_history =
      gs.user_progress.choice_history ∧
    (transition_to_node db gs node_id now b).2.user_progress.encountered_characters =
      gs.user_progress.encountered_characters ∧
    (transition_to_node db gs node_id now b).2.user_progress.last_active =
      gs.user_progress.last_active := by
  have hr : transition_to_node db gs node_id now b = (false, gs) := by
    unfold transition_to_node
    simp only [h]
  rw [hr]
  exact ⟨rfl, rfl, rfl, rfl, rfl, rfl, rfl, rfl⟩

def c5_node : StoryNode :=
  { id := 1, story_id := 1, parent_node_id := none, narrative_text := "root",
    created_at := 0, branch_metadata := none }

def c5_db : DB := { nodes := [c5_node], stories := [1], plot_arcs := [] }

def c5_gs : GameState :=
  { user_progress :=
    { user_id := "alice", current_story_id := some 1, current_node_id := some 1,
      node_count := 1, last_active := 4, active_missions := [], completed_missions := [],
      failed_missions := [], choice_history := [1], encountered_characters := [],
      currency_balances := [], relationships := [], experience_points := 0 },
    current_node := some c5_node,
    story_history_buffer := [] }

/-- Witness for transition_invalid_node_no_mutation: node 42 does not exist. -/
theorem transition_invalid_node_no_mutation_witness :
    findNode c5_db 42 = none ∧
    ((transition_to_node c5_db c5_gs 42 9 true).1 = false ∧
     (transition_to_node c5_db c5_gs 42 9 true).2 = c5_gs ∧
     (transition_to_node c5_db c5_gs 42 9 true).2.story_history_buffer =
       c5_gs.story_history_buffer ∧
     (transition_to_node c5_db c5_gs 42 9 true).2.current_node = c5_gs.current_node ∧
     (transition_to_node c5_db c5_gs 42 9 true).2.user_progress.current_node_id =
       c5_gs.user_progress.current_node_id ∧
     (transition_to_node c5_db c5_gs 42 9 true).2.user_progress.choice_history =
       c5_gs.user_progress.choice_history ∧
     (transition_to_node c5_db c5_gs 42 9 true).2.user_progress.encountered_characters =
       c5_gs.user_progress.encountered_characters ∧
     (transition_to_node c5_db c5_gs 42 9 true).2.user_progress.last_active =
       c5_gs.user_progress.last_active) :=
  ⟨rfl, transition_invalid_node_no_mutation c5_db c5_gs 42 9 true rfl⟩

/-! ## Choice history and encountered characters on successful transitions -/

/-- Metadata character list of a node (empty when the blob is absent). -/
def nodeChars (n : StoryNode) : List CharMeta :=
  match n.branch_metadata with
  | some md => md.encountered_characters
  | none => []

theorem transition_some_eq (db : DB) (gs : GameState) (nid now : Nat) (n : StoryNode)
    (h : findNode db nid = some n) :
    transition_to_node db gs nid now true =
      (true,
        { user_progress := progressUpdate gs.user_progress n nid now,
          current_node := some n,
          story_history_buffer :=
            match gs.current_node with
            | some cur => updateStoryHistory gs.story_history_buffer cur now
            | none => gs.story_history_buffer }) := by
  unfold transition_to_node
  simp only [h]
  cases gs.current_node <;> rfl

theorem progressUpdate_choice_history (up : UserProgress) (n : StoryNode) (nid now : Nat) :
    (progressUpdate up n nid now).choice_history =
      if nid ∈ up.choice_history then up.choice_history
      else up.choice_history ++ [nid] := by
  unfold progressUpdate
  cases hbm : n.branch_metadata with
  | none => by_cases hmem : nid ∈ up.choice_history <;> simp [hmem]
  | some md =>
    by_cases hval : md.encountered_characters.isEmpty <;>
      by_cases hmem : nid ∈ up.choice_history <;> simp [hval, hmem]

theorem progressUpdate_encountered (up : UserProgress) (n : StoryNode) (nid now : Nat) :
    (progressUpdate up n nid now).encountered_characters =
      mergeEncountered up.encountered_characters (nodeChars n) := by
  unfold progressUpdate nodeChars
  cases hbm : n.branch_metadata with
  | none =>
    by_cases hmem : nid ∈ up.choice_history <;> simp [hmem, mergeEncountered]
  | some md =>
    cases hcs : md.encountered_characters with
    | nil => by_cases hmem : nid ∈ up.choice_history <;> simp [hmem, hcs, mergeEncountered]
    | cons c cs =>
      by_cases hmem : nid ∈ up.choice_history <;> simp [hmem, hcs, mergeEncountered]

def c6_node1 : StoryNode :=
  { id := 1, story_id := 1, parent_node_id := none, narrative_text := "r",
    created_at := 0, branch_metadata := none }

def c6_node2 : StoryNode :=
  { id := 2, story_id := 1, parent_node_id := some 1, narrative_text := "s",
    created_at := 1, branch_metadata := none }

def c6_db : DB := { nodes := [c6_node1, c6_node2], stories := [1], plot_arcs := [] }

def c6_gs : GameState :=
  { user_progress :=
    { user_id := "alice", current_story_id := some 1, current_node_id := some 2,
      node_count := 1, last_active := 3, active_missions := [], completed_missions := [],
      failed_missions := [], choice_history := [1, 2], encountered_characters := [],
      currency_balances := [], relationships := [], experience_points := 0 },
    current_node := some c6_node2,
    story_history_buffer := [] }

/-- C6 counterexample: node id 1 appears earlier in the choice history [1, 2]
and is not its last entry, yet a successful transition to node 1 does not
append it — the code skips on membership anywhere in the history, not only
when the id is the last entry. -/
theorem choice_history_counterexample :
    (transition_to_node c6_db c6_gs 1 7 true).1 = true ∧
    c6_gs.user_progress.choice_history.getLast? = some 2 ∧
    1 ∈ c6_gs.user_progress.choice_history ∧
    (transition_to_node c6_db c6_gs 1 7 true).2.user_progress.choice_history = [1, 2] ∧
    (transition_to_node c6_db c6_gs 1 7 true).2.user_progress.choice_history ≠ [1, 2, 1] := by
  refine ⟨rfl, rfl, by decide, rfl, by decide⟩

/-- C6 amended: during a successful transition the new node id is appended to
the choice history exactly when it does not already appear anywhere in that
history; an id that appears earlier (even when it is not the last entry) is
not appended again. -/
theorem choice_history_append_iff_absent (db : DB) (gs : GameState) (nid now : Nat)
    (n : StoryNode) (h : findNode db nid = some n) :
    (transition_to_node db gs nid now true).1 = true ∧
    (transition_to_node db gs nid now true).2.user_progress.choice_history =
      (if nid ∈ gs.user_progress.choice_history then gs.user_progress.choice_history
       else gs.user_progress.choice_history ++ [nid]) := by
  rw [transition_some_eq db gs nid now n h]
  exact ⟨rfl, progressUpdate_choice_history gs.user_progress n nid now⟩

/-- Witness for choice_history_append_iff_absent at the concrete revisit of
node 1 (already present in the history, hence not appended). -/
theorem choice_history_append_iff_absent_witness :
    findNode c6_db 1 = some c6_node1 ∧
    ((transition_to_node c6_db c6_gs 1 7 true).1 = true ∧
     (transition_to_node c6_db c6_gs 1 7 true).2.user_progress.choice_history =
       (if 1 ∈ c6_gs.user_progress.choice_history then c6_gs.user_progress.choice_history
        else c6_gs.user_progress.choice_history ++ [1])) :=
  ⟨rfl, choice_history_append_iff_absent c6_db c6_gs 1 7 c6_node1 rfl⟩

/-! ## Write-once merge of encountered characters -/

theorem find?_eq_none_of_alookup_none {κ α : Type} [DecidableEq κ]
    (m : List (κ × α)) (k : κ) (h : alookup m k = none) :
    m.find? (fun p => p.1 = k) = none := by
  unfold alookup at h
  cases hf : m.find? (fun p => p.1 = k) with
  | none => rfl
  | some a => rw [hf] at h; cases h

theorem alookup_append_of_isSome {κ α : Type} [DecidableEq κ]
    (m l : List (κ × α)) (k : κ) (h : (alookup m k).isSome) :
    alookup (m ++ l) k = alookup m k := by
  unfold alookup at h ⊢
  rw [List.find?_append]
  cases hf : m.find? (fun p => p.1 = k) with
  | none => rw [hf] at h; simp at h
  | some a => rfl

theorem mergeEncountered_step_present (mp : List (String × CharSnapshot)) (c : CharMeta)
    (t : List CharMeta) (hc : (alookup mp (charKey c)).isSome) :
    mergeEncountered mp (c :: t) = mergeEncountered mp t := by
  unfold mergeEncountered
  simp only [List.foldl_cons]
  rw [if_pos hc]

theorem mergeEncountered_step_absent (mp : List (String × CharSnapshot)) (c : CharMeta)
    (t : List CharMeta) (hc : ¬ (alookup mp (charKey c)).isSome) :
    mergeEncountered mp (c :: t) =
      mergeEncountered (mp ++ [(charKey c, snapshotOf c)]) t := by
  unfold mergeEncountered
  simp only [List.foldl_cons]
  rw [if_neg hc]

theorem mergeEncountered_preserves (cs : List CharMeta) :
    ∀ (mp : List (String × CharSnapshot)) (k : String), (alookup mp k).isSome →
      alookup (mergeEncountered mp cs) k = alookup mp k := by
  induction cs with
  | nil => intro mp k _; rfl
  | cons c t ih =>
    intro mp k h
    by_cases hc : (alookup mp (charKey c)).isSome
    · rw [mergeEncountered_step_present mp c t hc]
      exact ih mp k h
    · rw [mergeEncountered_step_absent mp c t hc]
      have h1 : alookup (mp ++ [(charKey c, snapshotOf c)]) k = alookup mp k :=
        alookup_append_of_isSome mp _ k h
      rw [ih (mp ++ [(charKey c, snapshotOf c)]) k (by rw [h1]; exact h), h1]

theorem mergeEncountered_new (cs : List CharMeta) :
    ∀ (mp : List (String × CharSnapshot)) (k : String) (v : CharSnapshot),
      alookup mp k = none →
      alookup (mergeEncountered mp cs) k = some v →
      ∃ c ∈ cs, charKey c = k ∧ v = snapshotOf c := by
  induction cs with
  | nil =>
    intro mp k v h0 h1
    rw [show mergeEncountered mp [] = mp from rfl, h0] at h1
    cases h1
  | cons c t ih =>
    intro mp k v h0 h1
    by_cases hc : (alookup mp (charKey c)).isSome
    · rw [mergeEncountered_step_present mp c t hc] at h1
      obtain ⟨c', hc', hk, hv⟩ := ih mp k v h0 h1
      exact ⟨c', List.mem_cons_of_mem _ hc', hk, hv⟩
    · rw [mergeEncountered_step_absent mp c t hc] at h1
      by_cases hk : k = charKey c
      · have hmp' : alookup (mp ++ [(charKey c, snapshotOf c)]) k = some (snapshotOf c) := by
          subst hk
          unfold alookup
          rw [afind_none_append mp (charKey c) (snapshotOf c)
            (find?_eq_none_of_alookup_none mp (charKey c) h0)]
          rfl
        rw [mergeEncountered_preserves t _ k (by rw [hmp']; rfl), hmp'] at h1
        cases h1
        exact ⟨c, List.mem_cons_self c t, hk.symm, rfl⟩
      · have hmp' : alookup (mp ++ [(charKey c, snapshotOf c)]) k = none := by
          unfold alookup
          rw [afind_append_ne mp (charKey c) k (snapshotOf c) hk]
          rw [find?_eq_none_of_alookup_none mp k h0]
          rfl
        obtain ⟨c', hc', hkk, hv⟩ := ih _ k v hmp' h1
        exact ⟨c', List.mem_cons_of_mem _ hc', hkk, hv⟩

/-- C7: the encountered-character map is write-once per character: a
successful transition keeps the existing snapshot of every character id
already present, and any id that appears fresh comes, with its snapshot, from
the new node's metadata. -/
theorem encountered_characters_write_once (db : DB) (gs : GameState) (nid now : Nat)
    (n : StoryNode) (h : findNode db nid = some n) :
    (transition_to_node db gs nid now true).1 = true ∧
    (∀ cid, (alookup gs.user_progress.encountered_characters cid).isSome →
      alookup
        (transition_to_node db gs nid now true).2.user_progress.encountered_characters cid =
        alookup gs.user_progress.encountered_characters cid) ∧
    (∀ cid v, alookup gs.user_progress.encountered_characters cid = none →
      alookup
        (transition_to_node db gs nid now true).2.user_progress.encountered_characters cid =
        some v →
      ∃ c ∈ nodeChars n, charKey c = cid ∧ v = snapshotOf c) := by
  rw [transition_some_eq db gs nid now n h]
  refine ⟨rfl, ?_, ?_⟩
  · intro cid hs
    show alookup (progressUpdate gs.user_progress n nid now).encountered_characters cid = _
    rw [progressUpdate_encountered]
    exact mergeEncountered_preserves (nodeChars n) _ cid hs
  · intro cid v h0 h1
    have h1' : alookup
        (progressUpdate gs.user_progress n nid now).encountered_characters cid = some v := h1
    rw [progressUpdate_encountered] at h1'
    exact mergeEncountered_new (nodeChars n) _ cid v h0 h1'

def c7_meta : NodeMetadata :=
  { encountered_characters :=
      [{ id := some 5, name := some "Eve", backstory := some "spy", plot_lines := some ["a"] },
       { id := some 6, name := some "Mallory", backstory := none, plot_lines := none }],
    mission_info := none }

def c7_node : StoryNode :=
  { id := 2, story_id := 1, parent_node_id := some 1, narrative_text := "s",
    created_at := 1, branch_metadata := some c7_meta }

def c7_db : DB := { nodes := [c7_node], stories := [1], plot_arcs := [] }

def c7_gs : GameState :=
  { user_progress :=
    { user_id := "alice", current_story_id := some 1, current_node_id := some 1,
      node_count := 1, last_active := 3, active_missions := [], completed_missions := [],
      failed_missions := [], choice_history := [1],
      encountered_characters := [("5", { name := "Old Eve", backstory := "old", plot_lines := [] })],
      currency_balances := [], relationships := [], experience_points := 0 },
    current_node := none,
    story_history_buffer := [] }

/-- Witness for encountered_characters_write_once: character 5 already has a
snapshot, character 6 is new. -/
theorem encountered_characters_write_once_witness :
    findNode c7_db 2 = some c7_node ∧
    ((transition_to_node c7_db c7_gs 2 9 true).1 = true ∧
     (∀ cid, (alookup c7_gs.user_progress.encountered_characters cid).isSome →
       alookup
         (transition_to_node c7_db c7_gs 2 9 true).2.user_progress.encountered_characters cid =
         alookup c7_gs.user_progress.encountered_characters cid) ∧
     (∀ cid v, alookup c7_gs.user_progress.encountered_characters cid = none →
       alookup
         (transition_to_node c7_db c7_gs 2 9 true).2.user_progress.encountered_characters cid =
         some v →
       ∃ c ∈ nodeChars c7_node, charKey c = cid ∧ v = snapshotOf c)) :=
  ⟨rfl, encountered_characters_write_once c7_db c7_gs 2 9 c7_node rfl⟩

/-! ## Rolling history buffer bound (C8) -/

/-- Last n elements of a list. -/
def takeLast {α : Type} (n : Nat) (l : List α) : List α :=
  l.drop (l.length - n)

theorem takeLast_of_length_le {α : Type} (n : Nat) (l : List α) (h : l.length ≤ n) :
    takeLast n l = l := by
  unfold takeLast
  rw [Nat.sub_eq_zero_of_le h, List.drop_zero]

theorem length_takeLast {α : Type} (n : Nat) (l : List α) :
    (takeLast n l).length = min n l.length := by
  unfold takeLast
  rw [List.length_drop]
  omega

theorem takeLast_append_right {α : Type} (n : Nat) (a b : List α) (h : n ≤ b.length) :
    takeLast n (a ++ b) = takeLast n b := by
  unfold takeLast
  rw [List.length_append]
  have h2 : a.length + b.length - n = a.length + (b.length - n) := by omega
  rw [h2]
  exact List.drop_append (b.length - n)

theorem takeLast_takeLast_append {α : Type} (n : Nat) (l d : List α) :
    takeLast n (takeLast n l ++ d) = takeLast n (l ++ d) := by
  by_cases h : l.length ≤ n
  · rw [takeLast_of_length_le n l h]
  · push_neg at h
    have hlen : (takeLast n l).length = n := by rw [length_takeLast]; omega
    have hsplit : l ++ d = l.take (l.length - n) ++ (takeLast n l ++ d) := by
      unfold takeLast
      rw [← List.append_assoc, List.take_append_drop]
    rw [hsplit,
      takeLast_append_right n (l.take (l.length - n)) (takeLast n l ++ d)
        (by rw [List.length_append, hlen]; omega)]

theorem updateStoryHistory_eq (buf : List HistoryEntry) (node : StoryNode) (now : Nat)
    (h : buf.length ≤ 3) :
    updateStoryHistory buf node now =
      takeLast 3 (buf ++ [⟨node.id, node.narrative_text, now⟩]) ∧
    (updateStoryHistory buf node now).length ≤ 3 := by
  unfold updateStoryHistory max_history_nodes
  have hlength : (buf ++ [(⟨node.id, node.narrative_text, now⟩ : HistoryEntry)]).length =
      buf.length + 1 := by
    rw [List.length_append]
    rfl
  by_cases hgt : (buf ++ [(⟨node.id, node.narrative_text, now⟩ : HistoryEntry)]).length > 3
  · rw [if_pos hgt]
    constructor
    · unfold takeLast
      congr 1
      omega
    · rw [List.length_drop]
      omega
  · rw [if_neg hgt]
    constructor
    · rw [takeLast_of_length_le 3 _ (by omega)]
    · omega

/-- Sequence of transitions: each step is a target node id with the wall-clock
timestamp of that call. -/
def runTransitions (db : DB) : GameState → List (Nat × Nat) → GameState
  | gs, [] => gs
  | gs, s :: rest => runTransitions db (transition_to_node db gs s.1 s.2 true).2 rest

/-- Chronological log of the history entries pushed by a run: a successful
transition departs the current node (when one exists) and stamps the entry
with that transition's timestamp; a failed step departs nothing. -/
def departedEntries (db : DB) : Option StoryNode → List (Nat × Nat) → List HistoryEntry
  | _, [] => []
  | cur, s :: rest =>
    match findNode db s.1 with
    | none => departedEntries db cur rest
    | some n =>
      (match cur with
       | some c => [⟨c.id, c.narrative_text, s.2⟩]
       | none => []) ++ departedEntries db (some n) rest

theorem departedEntries_nil (db : DB) (cur : Option StoryNode) :
    departedEntries db cur [] = [] := rfl

theorem departedEntries_cons (db : DB) (cur : Option StoryNode) (s : Nat × Nat)
    (rest : List (Nat × Nat)) :
    departedEntries db cur (s :: rest) =
      match findNode db s.1 with
      | none => departedEntries db cur rest
      | some n =>
        (match cur with
         | some c => [⟨c.id, c.narrative_text, s.2⟩]
         | none => []) ++ departedEntries db (some n) rest := rfl

theorem runTransitions_buffer (db : DB) :
    ∀ (steps : List (Nat × Nat)) (gs : GameState), gs.story_history_buffer.length ≤ 3 →
      (runTransitions db gs steps).story_history_buffer =
        takeLast 3 (gs.story_history_buffer ++ departedEntries db gs.current_node steps) := by
  intro steps
  induction steps with
  | nil =>
    intro gs h
    show gs.story_history_buffer =
      takeLast 3 (gs.story_history_buffer ++ departedEntries db gs.current_node [])
    rw [departedEntries_nil, List.append_nil, takeLast_of_length_le 3 _ h]
  | cons s rest ih =>
    intro gs h
    show (runTransitions db (transition_to_node db gs s.1 s.2 true).2 rest).story_history_buffer =
      takeLast 3 (gs.story_history_buffer ++ departedEntries db gs.current_node (s :: rest))
    rw [departedEntries_cons]
    cases hf : findNode db s.1 with
    | none =>
      have ht : transition_to_node db gs s.1 s.2 true = (false, gs) := by
        unfold transition_to_node
        simp only [hf]
      rw [ht]
      exact ih gs h
    | some n =>
      rw [transition_some_eq db gs s.1 s.2 n hf]
      cases hcur : gs.current_node with
      | none =>
        show (runTransitions db _ rest).story_history_buffer =
          takeLast 3 (gs.story_history_buffer ++ ([] ++ departedEntries db (some n) rest))
        rw [List.nil_append]
        exact ih _ h
      | some c =>
        obtain ⟨heq, hle⟩ := updateStoryHistory_eq gs.story_history_buffer c s.2 h
        show (runTransitions db _ rest).story_history_buffer =
          takeLast 3 (gs.story_history_buffer ++
            ([⟨c.id, c.narrative_text, s.2⟩] ++ departedEntries db (some n) rest))
        rw [← List.append_assoc, ← takeLast_takeLast_append, ← heq]
        exact ih _ hle

theorem runTransitions_buffer_le (db : DB) (steps : List (Nat × Nat)) (gs : GameState)
    (h : gs.story_history_buffer.length ≤ 3) :
    (runTransitions db gs steps).story_history_buffer.length ≤ 3 := by
  rw [runTransitions_buffer db steps gs h, length_takeLast]
  omega

theorem departedEntries_length_ge (db : DB) :
    ∀ (steps : List (Nat × Nat)) (cur : Option StoryNode),
      (∀ p ∈ steps, (findNode db p.1).isSome) →
      steps.length ≤ (departedEntries db cur steps).length +
        (match cur with | some _ => 0 | none => 1) := by
  intro steps
  induction steps with
  | nil =>
    intro cur _
    simp
  | cons s rest ih =>
    intro cur hval
    have hs : (findNode db s.1).isSome := hval s (List.mem_cons_self s rest)
    cases hf : findNode db s.1 with
    | none => rw [hf] at hs; simp at hs
    | some n =>
      have hrest := ih (some n) (fun p hp => hval p (List.mem_cons_of_mem s hp))
      simp only [] at hrest
      rw [departedEntries_cons]
      simp only [hf]
      cases cur with
      | some c =>
        simp only [List.length_cons, List.length_append, List.length_nil]
        omega
      | none =>
        simp only [List.nil_append, List.length_cons]
        omega

/-- C8: the rolling history buffer never exceeds 3 entries, and after any
sequence of more than 3 successful transitions it holds exactly the 3 most
recently departed nodes in chronological (departure) order, each entry pushed
and timestamped at the moment its transition left that node. -/
theorem history_buffer_bound (db : DB) (gs : GameState) (steps : List (Nat × Nat))
    (hbuf : gs.story_history_buffer.length ≤ 3) :
    (runTransitions db gs steps).story_history_buffer.length ≤ 3 ∧
    ((∀ p ∈ steps, (findNode db p.1).isSome) → steps.length > 3 →
      (runTransitions db gs steps).story_history_buffer =
        takeLast 3 (departedEntries db gs.current_node steps) ∧
      (runTransitions db gs steps).story_history_buffer.length = 3) := by
  refine ⟨runTransitions_buffer_le db steps gs hbuf, ?_⟩
  intro hval hlen
  have hD : steps.length ≤ (departedEntries db gs.current_node steps).length + 1 := by
    have hg := departedEntries_length_ge db steps gs.current_node hval
    have hmatch : (match gs.current_node with | some _ => 0 | none => 1) ≤ 1 := by
      cases gs.current_node <;> simp
    omega
  have hD3 : 3 ≤ (departedEntries db gs.current_node steps).length := by omega
  constructor
  · rw [runTransitions_buffer db steps gs hbuf, takeLast_append_right 3 _ _ hD3]
  · rw [runTransitions_buffer db steps gs hbuf, length_takeLast, List.length_append]
    omega

def c8_node1 : StoryNode :=
  { id := 1, story_id := 1, parent_node_id := none, narrative_text := "a",
    created_at := 0, branch_metadata := none }

def c8_node2 : StoryNode :=
  { id := 2, story_id := 1, parent_node_id := some 1, narrative_text := "b",
    created_at := 1, branch_metadata := none }

def c8_node3 : StoryNode :=
  { id := 3, story_id := 1, parent_node_id := some 2, narrative_text := "c",
    created_at := 2, branch_metadata := none }

def c8_node4 : StoryNode :=
  { id := 4, story_id := 1, parent_node_id := some 3, narrative_text := "d",
    created_at := 3, branch_metadata := none }

def c8_db : DB :=
  { nodes := [c8_node1, c8_node2, c8_node3, c8_node4], stories := [1], plot_arcs := [] }

def c8_gs : GameState :=
  { user_progress :=
    { user_id := "alice", current_story_id := some 1, current_node_id := none,
      node_count := 0, last_active := 0, active_missions := [], completed_missions := [],
      failed_missions := [], choice_history := [], encountered_characters := [],
      currency_balances := [], relationships := [], experience_points := 0 },
    current_node := none,
    story_history_buffer := [] }

def c8_steps : List (Nat × Nat) := [(1, 10), (2, 11), (3, 12), (4, 13)]

/-- Witness for history_buffer_bound on a concrete run of 4 transitions. -/
theorem history_buffer_bound_witness :
    c8_gs.story_history_buffer.length ≤ 3 ∧
    ((runTransitions c8_db c8_gs c8_steps).story_history_buffer.length ≤ 3 ∧
     ((∀ p ∈ c8_steps, (findNode c8_db p.1).isSome) → c8_steps.length > 3 →
       (runTransitions c8_db c8_gs c8_steps).story_history_buffer =
         takeLast 3 (departedEntries c8_db c8_gs.current_node c8_steps) ∧
       (runTransitions c8_db c8_gs c8_steps).story_history_buffer.length = 3)) :=
  ⟨by decide, history_buffer_bound c8_db c8_gs c8_steps (by decide)⟩

/-! ## Node resolution (state_manager.py, resolve_current_node) -/

/-- Fold step of the ORDER BY created_at DESC query: keep the node with the
greater creation timestamp, first row winning ties. -/
def laterNode (acc : Option StoryNode) (n : StoryNode) : Option StoryNode :=
  match acc with
  | none => some n
  | some m => if n.created_at > m.created_at then some n else acc

/-- StoryNode.query.filter_by(story_id).order_by(created_at desc).first(). -/
def latestNode (db : DB) (sid : Nat) : Option StoryNode :=
  (db.nodes.filter (fun n => n.story_id = sid)).foldl laterNode none

/-- StoryNode.query.filter_by(story_id, parent_node_id None).first(). -/
def rootNode (db : DB) (sid : Nat) : Option StoryNode :=
  (db.nodes.filter (fun n => n.story_id = sid ∧ n.parent_node_id = none)).head?

/-- GameState.resolve_current_node (state_manager.py lines 438-507): priority
chain over the pointer, the latest story node and the root; every failure
(no target story id, unknown story, no node at all) is caught and surfaces as
None. Python or-truthiness makes a zero story id fall back to the session
story, and a zero current_node_id counts as unset. -/
def resolve_current_node (db : DB) (up : UserProgress) (current_story_id : Option Nat)
    (story_id : Option Nat) : Option StoryNode :=
  let target :=
    truthyId (match truthyId story_id with
              | some s => some s
              | none => current_story_id)
  match target with
  | none => none
  | some t =>
    if t ∈ db.stories then
      let fallback :=
        match latestNode db t with
        | some n => some n
        | none => rootNode db t
      match truthyId up.current_node_id with
      | some cid =>
        match findNode db cid with
        | some node => if node.story_id = t then some node else fallback
        | none => fallback
      | none => fallback
    else none

/-- Priority-1 pointer resolution: the node referenced by current_node_id when
it is set, exists, and belongs to the requested story. -/
def pointerNode (db : DB) (up : UserProgress) (sid : Nat) : Option StoryNode :=
  match truthyId up.current_node_id with
  | none => none
  | some cid =>
    match findNode db cid with
    | none => none
    | some node => if node.story_id = sid then some node else none

theorem laterNode_some_eq (m n : StoryNode) :
    laterNode (some m) n = if n.created_at > m.created_at then some n else some m := rfl

theorem laterNode_isSome (l : List StoryNode) :
    ∀ a : StoryNode, (l.foldl laterNode (some a)).isSome := by
  induction l with
  | nil => intro a; rfl
  | cons x t ih =>
    intro a
    show (t.foldl laterNode (laterNode (some a) x)).isSome
    rw [laterNode_some_eq]
    by_cases hgt : x.created_at > a.created_at
    · rw [if_pos hgt]; exact ih x
    · rw [if_neg hgt]; exact ih a

theorem foldl_laterNode_mem (l : List StoryNode) :
    ∀ (acc : Option StoryNode) (n : StoryNode),
      l.foldl laterNode acc = some n → acc = some n ∨ n ∈ l := by
  induction l with
  | nil => intro acc n h; exact Or.inl h
  | cons x t ih =>
    intro acc n h
    have h2 : t.foldl laterNode (laterNode acc x) = some n := h
    rcases ih (laterNode acc x) n h2 with hacc | hmem
    · cases acc with
      | none =>
        cases hacc
        exact Or.inr (List.mem_cons_self x t)
      | some m =>
        rw [laterNode_some_eq] at hacc
        by_cases hgt : x.created_at > m.created_at
        · rw [if_pos hgt] at hacc
          cases hacc
          exact Or.inr (List.mem_cons_self x t)
        · rw [if_neg hgt] at hacc
          exact Or.inl hacc
    · exact Or.inr (List.mem_cons_of_mem x hmem)

theorem foldl_laterNode_ge_acc (l : List StoryNode) :
    ∀ (acc : Option StoryNode) (a n : StoryNode),
      l.foldl laterNode acc = some n → acc = some a →
      a.created_at ≤ n.created_at := by
  induction l with
  | nil =>
    intro acc a n h ha
    rw [ha] at h
    cases h
    exact Nat.le_refl _
  | cons x t ih =>
    intro acc a n h ha
    subst ha
    have h2 : t.foldl laterNode (laterNode (some a) x) = some n := h
    rw [laterNode_some_eq] at h2
    by_cases hgt : x.created_at > a.created_at
    · rw [if_pos hgt] at h2
      exact Nat.le_trans (Nat.le_of_lt hgt) (ih _ x n h2 rfl)
    · rw [if_neg hgt] at h2
      exact ih _ a n h2 rfl

theorem foldl_laterNode_ge_mem (l : List StoryNode) :
    ∀ (acc : Option StoryNode) (n : StoryNode),
      l.foldl laterNode acc = some n →
      ∀ m ∈ l, m.created_at ≤ n.created_at := by
  induction l with
  | nil => intro acc n _ m hm; cases hm
  | cons x t ih =>
    intro acc n h m hm
    have h2 : t.foldl laterNode (laterNode acc x) = some n := h
    have hx : ∃ b, laterNode acc x = some b ∧ x.created_at ≤ b.created_at := by
      cases acc with
      | none => exact ⟨x, rfl, Nat.le_refl _⟩
      | some m0 =>
        rw [laterNode_some_eq]
        by_cases hgt : x.created_at > m0.created_at
        · rw [if_pos hgt]; exact ⟨x, rfl, Nat.le_refl _⟩
        · rw [if_neg hgt]; exact ⟨m0, rfl, Nat.le_of_not_lt hgt⟩
    rcases List.mem_cons.mp hm with hmx | hmt
    · subst hmx
      obtain ⟨b, hb, hxb⟩ := hx
      exact Nat.le_trans hxb (foldl_laterNode_ge_acc t _ b n h2 hb)
    · exact ih _ n h2 m hmt

theorem foldl_laterNode_none (l : List StoryNode)
    (h : l.foldl laterNode none = none) : l = [] := by
  cases l with
  | nil => rfl
  | cons x t =>
    have h2 : t.foldl laterNode (some x) = none := h
    have := laterNode_isSome t x
    rw [h2] at this
    cases this

theorem latestNode_spec (db : DB) (sid : Nat) (n : StoryNode)
    (h : latestNode db sid = some n) :
    n ∈ db.nodes ∧ n.story_id = sid ∧
    ∀ m ∈ db.nodes, m.story_id = sid → m.created_at ≤ n.created_at := by
  unfold latestNode at h
  have hmem := foldl_laterNode_mem _ none n h
  rcases hmem with habs | hmem
  · cases habs
  · have hm := List.mem_filter.mp hmem
    refine ⟨hm.1, by simpa using hm.2, ?_⟩
    intro m hmn hms
    exact foldl_laterNode_ge_mem _ none n h m
      (List.mem_filter.mpr ⟨hmn, by simpa using hms⟩)

theorem latestNode_none (db : DB) (sid : Nat) (h : latestNode db sid = none) :
    ∀ m ∈ db.nodes, m.story_id ≠ sid := by
  unfold latestNode at h
  have hnil := foldl_laterNode_none _ h
  intro m hm hs
  have : m ∈ db.nodes.filter (fun n => n.story_id = sid) :=
    List.mem_filter.mpr ⟨hm, by simpa using hs⟩
  rw [hnil] at this
  cases this

theorem rootNode_none_of_no_story_nodes (db : DB) (sid : Nat)
    (h : ∀ m ∈ db.nodes, m.story_id ≠ sid) : rootNode db sid = none := by
  unfold rootNode
  have hnil : db.nodes.filter (fun n => n.story_id = sid ∧ n.parent_node_id = none) = [] := by
    rw [List.filter_eq_nil_iff]
    intro a ha
    simp only [decide_eq_true_eq, not_and]
    intro hs
    exact absurd hs (h a ha)
  rw [hnil]
  rfl

theorem resolve_reduce (db : DB) (up : UserProgress) (cs : Option Nat) (sid : Nat)
    (hsid : sid ≠ 0) (hstory : sid ∈ db.stories) :
    resolve_current_node db up cs (some sid) =
      (match pointerNode db up sid with
       | some node => some node
       | none =>
         match latestNode db sid with
         | some n => some n
         | none => rootNode db sid) := by
  unfold resolve_current_node pointerNode
  have h1 : truthyId (some sid) = some sid := by simp [truthyId, hsid]
  simp only [h1]
  rw [if_pos hstory]
  cases htr : truthyId up.current_node_id with
  | none => rfl
  | some cid =>
    cases hfn : findNode db cid with
    | none => simp only [hfn]
    | some node =>
      simp only [hfn]
      by_cases hst : node.story_id = sid
      · rw [if_pos hst, if_pos hst]
      · rw [if_neg hst, if_neg hst]

/-- C2: resolve_current_node follows the documented priority order — the
session pointer when it references an existing node of the requested story, a
stale or cross-story pointer falling through to the most recently created node
of the story, then the root, and failure (None) when the story has no node at
all. -/
theorem resolve_current_node_priority (db : DB) (up : UserProgress) (cs : Option Nat)
    (sid : Nat) (hsid : sid ≠ 0) (hstory : sid ∈ db.stories) :
    (∀ node, pointerNode db up sid = some node →
      resolve_current_node db up cs (some sid) = some node ∧ node.story_id = sid) ∧
    (pointerNode db up sid = none →
      resolve_current_node db up cs (some sid) =
        (match latestNode db sid with
         | some n => some n
         | none => rootNode db sid)) ∧
    (∀ n, latestNode db sid = some n →
      n.story_id = sid ∧ ∀ m ∈ db.nodes, m.story_id = sid → m.created_at ≤ n.created_at) ∧
    (latestNode db sid = none →
      (∀ m ∈ db.nodes, m.story_id ≠ sid) ∧ rootNode db sid = none ∧
      resolve_current_node db up cs (some sid) = none) := by
  have hred := resolve_reduce db up cs sid hsid hstory
  refine ⟨?_, ?_, ?_, ?_⟩
  · intro node hp
    constructor
    · rw [hred, hp]
    · unfold pointerNode at hp
      cases htr : truthyId up.current_node_id with
      | none =>
        rw [htr] at hp
        exact Option.noConfusion hp
      | some cid =>
        simp only [htr] at hp
        cases hfn : findNode db cid with
        | none =>
          simp only [hfn] at hp
          exact Option.noConfusion hp
        | some nd =>
          simp only [hfn] at hp
          by_cases hst : nd.story_id = sid
          · rw [if_pos hst] at hp
            cases hp
            exact hst
          · rw [if_neg hst] at hp
            exact Option.noConfusion hp
  · intro hp
    rw [hred, hp]
  · intro n hl
    have := latestNode_spec db sid n hl
    exact ⟨this.2.1, this.2.2⟩
  · intro hl
    have hno := latestNode_none db sid hl
    have hroot := rootNode_none_of_no_story_nodes db sid hno
    have hp : pointerNode db up sid = none := by
      unfold pointerNode
      cases htr : truthyId up.current_node_id with
      | none => rfl
      | some cid =>
        cases hfn : findNode db cid with
        | none => simp only [hfn]
        | some nd =>
          have hmem : nd ∈ db.nodes := List.mem_of_find?_eq_some hfn
          simp only [hfn]
          rw [if_neg (hno nd hmem)]
    refine ⟨hno, hroot, ?_⟩
    rw [hred, hp, hl, hroot]

def c2_root1 : StoryNode :=
  { id := 10, story_id := 1, parent_node_id := none, narrative_text := "r1",
    created_at := 0, branch_metadata := none }

def c2_mid1 : StoryNode :=
  { id := 11, story_id := 1, parent_node_id := some 10, narrative_text := "m1",
    created_at := 5, branch_metadata := none }

def c2_other2 : StoryNode :=
  { id := 20, story_id := 2, parent_node_id := none, narrative_text := "r2",
    created_at := 7, branch_metadata := none }

def c2_db : DB :=
  { nodes := [c2_root1, c2_mid1, c2_other2], stories := [1, 2], plot_arcs := [] }

def c2_up : UserProgress :=
  { user_id := "alice", current_story_id := some 2, current_node_id := some 20,
    node_count := 1, last_active := 0, active_missions := [], completed_missions := [],
    failed_missions := [], choice_history := [], encountered_characters := [],
    currency_balances := [], relationships := [], experience_points := 0 }

/-- Witness for resolve_current_node_priority: a session whose pointer
references a node of story 2 while story 1 is requested. -/
theorem resolve_current_node_priority_witness :
    ((1 : Nat) ≠ 0 ∧ 1 ∈ c2_db.stories) ∧
    ((∀ node, pointerNode c2_db c2_up 1 = some node →
       resolve_current_node c2_db c2_up none (some 1) = some node ∧ node.story_id = 1) ∧
     (pointerNode c2_db c2_up 1 = none →
       resolve_current_node c2_db c2_up none (some 1) =
         (match latestNode c2_db 1 with
          | some n => some n
          | none => rootNode c2_db 1)) ∧
     (∀ n, latestNode c2_db 1 = some n →
       n.story_id = 1 ∧ ∀ m ∈ c2_db.nodes, m.story_id = 1 → m.created_at ≤ n.created_at) ∧
     (latestNode c2_db 1 = none →
       (∀ m ∈ c2_db.nodes, m.story_id ≠ 1) ∧ rootNode c2_db 1 = none ∧
       resolve_current_node c2_db c2_up none (some 1) = none)) :=
  ⟨⟨by decide, by decide⟩,
    resolve_current_node_priority c2_db c2_up none 1 (by decide) (by decide)⟩

/-! ## Enhanced context assembly (state_manager.py, get_enhanced_context) -/

/-- Truncation used by get_enhanced_context: keep the first k characters and
append an ellipsis marker when the text was longer. -/
def truncTo (k : Nat) (s : String) : String :=
  if s.length ≤ k then s else String.mk (s.data.take k) ++ "..."

/-- Key-node ids collected from the active plot arcs of the story (an arc with
an empty key_nodes list contributes nothing, exactly like the truthiness guard
in the source). -/
def keyNodeIds (db : DB) (node : StoryNode) : List Nat :=
  (db.plot_arcs.filter (fun a => a.story_id = node.story_id ∧ a.status = "active")).foldl
    (fun acc a => acc ++ a.key_nodes) []

/-- Ancestor collection: follow parent pointers for at most 5 hops, stopping
at the root (no parent, with Python treating id 0 as unset) or at a dangling
parent id. The fuel argument is the remaining hop budget. -/
def collectAncestors (db : DB) : Option Nat → Nat → List StoryNode
  | _, 0 => []
  | none, _ => []
  | some pid, Nat.succ fuel =>
    if pid = 0 then []
    else
      match findNode db pid with
      | some p => p :: collectAncestors db p.parent_node_id fuel
      | none => []

/-- Ancestors reversed into chronological order. -/
def ancestorNodes (db : DB) (node : StoryNode) : List StoryNode :=
  (collectAncestors db node.parent_node_id 5).reverse

/-- KEY PLOT POINTS section lines (empty when no active arc contributes an
existing node). -/
def keySection (db : DB) (node : StoryNode) : List String :=
  let ids := keyNodeIds db node
  if ids.isEmpty then []
  else
    let key_nodes := db.nodes.filter (fun n => n.id ∈ ids)
    if key_nodes.isEmpty then []
    else
      "KEY PLOT POINTS:" ::
        (key_nodes.enum.map (fun p =>
          "MOMENT " ++ toString (p.1 + 1) ++ ": " ++ truncTo 300 p.2.narrative_text)) ++ [""]

/-- RECENT STORY HISTORY section lines (empty when there are no ancestors). -/
def ancestorSection (db : DB) (node : StoryNode) : List String :=
  let anc := ancestorNodes db node
  if anc.isEmpty then []
  else
    "RECENT STORY HISTORY:" ::
      (anc.enum.map (fun p =>
        "SCENE " ++ toString (p.1 + 1) ++ ": " ++ truncTo 200 p.2.narrative_text)) ++ [""]

/-- CURRENT MISSION section lines (empty when the node metadata carries no
mission_info). -/
def missionSection (node : StoryNode) : List String :=
  match node.branch_metadata with
  | none => []
  | some md =>
    match md.mission_info with
    | none => []
    | some mi =>
      ["CURRENT MISSION:",
       "Title: " ++ mi.title.getD "Unknown",
       "Objective: " ++ mi.objective.getD "Unknown",
       "Status: " ++ mi.status.getD "Unknown",
       "Progress: " ++ toString (mi.progress.getD 0) ++ "%",
       ""]

/-- GameState.get_enhanced_context (state_manager.py lines 157-260): best
effort context text; a missing node (or any internal error) yields the empty
string, otherwise the sections are joined in order with newline separators. -/
def get_enhanced_context (db : DB) (node_id : Nat) : String :=
  match findNode db node_id with
  | none => ""
  | some current_node =>
    String.intercalate "\n"
      (keySection db current_node ++ ancestorSection db current_node ++
        missionSection current_node)

theorem collectAncestors_zero (db : DB) (p : Option Nat) :
    collectAncestors db p 0 = [] := by
  cases p <;> rfl

theorem collectAncestors_succ (db : DB) (pid : Nat) (f : Nat) :
    collectAncestors db (some pid) (f + 1) =
      (if pid = 0 then []
       else
         match findNode db pid with
         | some p => p :: collectAncestors db p.parent_node_id f
         | none => []) := rfl

theorem collectAncestors_length_le (db : DB) :
    ∀ (fuel : Nat) (p : Option Nat), (collectAncestors db p fuel).length ≤ fuel := by
  intro fuel
  induction fuel with
  | zero =>
    intro p
    rw [collectAncestors_zero]
    exact Nat.le_refl 0
  | succ f ih =>
    intro p
    cases p with
    | none => exact Nat.le_of_lt (Nat.succ_pos f)
    | some pid =>
      rw [collectAncestors_succ]
      by_cases hz : pid = 0
      · rw [if_pos hz]
        exact Nat.zero_le _
      · rw [if_neg hz]
        cases hfn : findNode db pid with
        | none => exact Nat.zero_le _
        | some q =>
          simp only [List.length_cons]
          exact Nat.succ_le_succ (ih q.parent_node_id)

theorem collectAncestors_subset (db : DB) :
    ∀ (fuel : Nat) (p : Option Nat), ∀ a ∈ collectAncestors db p fuel, a ∈ db.nodes := by
  intro fuel
  induction fuel with
  | zero =>
    intro p a ha
    rw [collectAncestors_zero] at ha
    cases ha
  | succ f ih =>
    intro p a ha
    cases p with
    | none => cases ha
    | some pid =>
      rw [collectAncestors_succ] at ha
      by_cases hz : pid = 0
      · rw [if_pos hz] at ha
        cases ha
      · rw [if_neg hz] at ha
        cases hfn : findNode db pid with
        | none => rw [hfn] at ha; cases ha
        | some q =>
          rw [hfn] at ha
          rcases List.mem_cons.mp ha with hq | ht
          · subst hq
            exact List.mem_of_find?_eq_some hfn
          · exact ih q.parent_node_id a ht

theorem collectAncestors_head_parent (db : DB) (pid0 : Option Nat) (p : StoryNode)
    (l : List StoryNode) (h : collectAncestors db pid0 5 = p :: l) :
    pid0 = some p.id ∧ findNode db p.id = some p := by
  cases pid0 with
  | none => cases h
  | some pid =>
    rw [collectAncestors_succ] at h
    by_cases hz : pid = 0
    · rw [if_pos hz] at h
      cases h
    · rw [if_neg hz] at h
      cases hfn : findNode db pid with
      | none => rw [hfn] at h; cases h
      | some q =>
        rw [hfn] at h
        have hq : q = p := by
          have := List.cons.injEq q (collectAncestors db q.parent_node_id 4) p l
          exact (congrArg (fun x => x) (List.head_eq_of_cons_eq h))
        subst hq
        have hid : q.id = pid := by
          have := List.find?_some (show db.nodes.find? (fun n => n.id = pid) = some q from hfn)
          simpa using this
        rw [hid]
        exact ⟨rfl, hfn⟩

theorem truncTo_length_le (k : Nat) (s : String) : (truncTo k s).length ≤ k + 3 := by
  unfold truncTo
  by_cases h : s.length ≤ k
  · rw [if_pos h]
    omega
  · rw [if_neg h]
    rw [String.length_append]
    have h1 : (String.mk (s.data.take k)).length = min k s.data.length := by
      show (s.data.take k).length = min k s.data.length
      exact List.length_take k s.data
    rw [h1]
    have h2 : ("..." : String).length = 3 := rfl
    rw [h2]
    omega

theorem truncTo_of_short (k : Nat) (s : String) (h : s.length ≤ k) : truncTo k s = s := by
  unfold truncTo
  rw [if_pos h]

/-- C9: context assembly is total — a missing node yields the empty string —
collects at most 5 ancestors that all come from the node store, the first
collected ancestor being the node referenced by the parent pointer, joins the
sections in the order key plot points, ancestors, mission snapshot (an empty
section contributing nothing), and truncates ancestor texts to 200 characters
and key-point texts to 300 characters (plus a 3-character ellipsis marker). -/
theorem get_enhanced_context_spec (db : DB) (nid : Nat) :
    (findNode db nid = none → get_enhanced_context db nid = "") ∧
    (∀ node, findNode db nid = some node →
      (ancestorNodes db node).length ≤ 5 ∧
      (∀ a ∈ ancestorNodes db node, a ∈ db.nodes) ∧
      (∀ p l, collectAncestors db node.parent_node_id 5 = p :: l →
        node.parent_node_id = some p.id ∧ findNode db p.id = some p) ∧
      get_enhanced_context db nid =
        String.intercalate "\n"
          (keySection db node ++ ancestorSection db node ++ missionSection node)) ∧
    (∀ s : String, (truncTo 200 s).length ≤ 203 ∧ (truncTo 300 s).length ≤ 303 ∧
      (s.length ≤ 200 → truncTo 200 s = s)) := by
  refine ⟨?_, ?_, ?_⟩
  · intro h
    unfold get_enhanced_context
    rw [h]
  · intro node h
    refine ⟨?_, ?_, ?_, ?_⟩
    · unfold ancestorNodes
      rw [List.length_reverse]
      exact collectAncestors_length_le db 5 node.parent_node_id
    · intro a ha
      unfold ancestorNodes at ha
      exact collectAncestors_subset db 5 node.parent_node_id a (List.mem_reverse.mp ha)
    · intro p l hpl
      exact collectAncestors_head_parent db node.parent_node_id p l hpl
    · unfold get_enhanced_context
      rw [h]
  · intro s
    exact ⟨truncTo_length_le 200 s, truncTo_length_le 300 s, truncTo_of_short 200 s⟩

/-! ## Node-count accounting in make_choice (game_engine.py) -/

/-- Durable versus in-flight view of the per-session counters that
GameEngine.make_choice touches: the persisted node_count column and the number
of story nodes of the session. -/
structure EngineState where
  node_count : Nat
  nodes : Nat
deriving Repr, DecidableEq

/-- Storage session as make_choice sees it: the committed (durable) state, the
pending uncommitted view, and the in-memory GameState._node_count mirror. -/
structure SessionDB where
  committed : EngineState
  pending : EngineState
  mem_node_count : Nat
deriving Repr, DecidableEq

/-- GameState.reload_state at the top of make_choice: refresh the session view
and the in-memory counter from the database. -/
def engine_reload (s : SessionDB) : SessionDB :=
  { s with pending := s.committed, mem_node_count := s.committed.node_count }

/-- GameState.increment_node_count (state_manager.py lines 98-119): bump the
in-memory counter, write it to the dedicated column and commit at once — the
new value is durable before the generation call runs. -/
def increment_node_count (s : SessionDB) : SessionDB :=
  let m := s.mem_node_count + 1
  let pending := { s.pending with node_count := m }
  { committed := pending, pending := pending, mem_node_count := m }

/-- db.session.commit() at the end of the success path. -/
def engine_commit (s : SessionDB) : SessionDB :=
  { s with committed := s.pending }

/-- db.session.rollback() in the except handler: discard uncommitted work
only; already-committed writes stay. -/
def engine_rollback (s : SessionDB) : SessionDB :=
  { s with pending := s.committed }

/-- Node-count skeleton of GameEngine.make_choice (game_engine.py lines
408-717): reload state, increment and persist the node count, then call the
generation collaborator, whose outcome is the genOk flag (false models a
timeout or provider error raising out of generate_continuation). On success
the new story node is created and everything commits; on failure the handler
rolls back the open transaction and re-raises, which the caller sees as a
failed call. Resolution, context assembly and the created node's content do
not touch the counters and are omitted. -/
def make_choice (s : SessionDB) (genOk : Bool) : Bool × SessionDB :=
  let s := engine_reload s
  let s := increment_node_count s
  if genOk then
    let s := { s with pending := { s.pending with nodes := s.pending.nodes + 1 } }
    (true, engine_commit s)
  else
    (false, engine_rollback s)

/-- C1 counterexample: starting from a committed node_count of 0 with no
nodes, a failed generation call leaves the persisted node_count at 1 with no
node created — the failure path does not restore node_count to its value
before the call. -/
theorem make_choice_failure_counterexample :
    (make_choice ⟨⟨0, 0⟩, ⟨0, 0⟩, 0⟩ false).1 = false ∧
    (make_choice ⟨⟨0, 0⟩, ⟨0, 0⟩, 0⟩ false).2.committed.node_count = 1 ∧
    (make_choice ⟨⟨0, 0⟩, ⟨0, 0⟩, 0⟩ false).2.committed.nodes = 0 ∧
    (make_choice ⟨⟨0, 0⟩, ⟨0, 0⟩, 0⟩ false).2.committed.node_count ≠
      (⟨⟨0, 0⟩, ⟨0, 0⟩, 0⟩ : SessionDB).committed.node_count := by
  refine ⟨rfl, rfl, rfl, by decide⟩

/-- C1 amended: a make_choice call whose generation step fails leaves the
session's node_count — persisted and in memory — incremented by exactly one
over its value before the call, with no corresponding node created; the
counter never decreases and is ahead of the actual node count by the one
in-flight request. -/
theorem make_choice_failure_increments (s : SessionDB) :
    (make_choice s false).1 = false ∧
    (make_choice s false).2.committed.node_count = s.committed.node_count + 1 ∧
    (make_choice s false).2.mem_node_count = s.committed.node_count + 1 ∧
    (make_choice s false).2.committed.nodes = s.committed.nodes ∧
    (make_choice s false).2.pending = (make_choice s false).2.committed :=
  ⟨rfl, rfl, rfl, rfl, rfl⟩

end SpyEngine
